import Mathlib

/-!
Shallow embedding of the card-duel backend core: the game-engine round
resolver (`src/game_engine/game_engine.py`, `services.py`, `repositories.py`,
`models.py`) and the matchmaking coordinator (`src/matchmaking/routes.py`),
together with theorems settling the specification claims about them.
-/

namespace CardDuel

/-- Association-list lookup, modelling a Python `dict` read (`d.get(k)` /
`k in d`). The first binding for a key wins; well-formed states bind each key
at most once, matching dict semantics. -/
def dictLookup {α β : Type} [DecidableEq α] : List (α × β) → α → Option β
  | [], _ => none
  | (k, v) :: rest, key => if k = key then some v else dictLookup rest key

/-- Association-list update, modelling a Python `dict` write `d[k] = v`
(also Redis `hset` and `zadd`): replace the binding in place if the key is
present, otherwise append it. -/
def dictSet {α β : Type} [DecidableEq α] : List (α × β) → α → β → List (α × β)
  | [], k, v => [(k, v)]
  | (a, b) :: rest, k, v =>
    if a = k then (k, v) :: rest else (a, b) :: dictSet rest k v

/-! ## Game-engine data model (`src/game_engine/models.py`) -/

abbrev PlayerId := Int
abbrev CardId := Int
abbrev Category := String

/-- A card's stats: a mapping from category name to numeric score
(`card_id → stats` values stored inside `playerN_deck`). -/
abbrev CardStats := List (Category × Int)

/-- A stored deck: the `card_id → stats` mapping persisted in
`match.playerN_deck`. -/
abbrev Deck := List (CardId × CardStats)

/-- `MatchStatus` enum from `models.py`. -/
inductive MatchStatus
  | SETUP
  | IN_PROGRESS
  | FINISHED
  deriving DecidableEq, Repr

/-- The `Round` row from `models.py` (columns relevant to game logic). -/
structure Round where
  round_number : Nat
  category : Category
  player1_card_id : Option CardId
  player2_card_id : Option CardId
  winner_id : Option PlayerId
  deriving DecidableEq, Repr

/-- `Round.is_complete` from `models.py`. -/
def Round.is_complete (r : Round) : Bool :=
  r.player1_card_id.isSome && r.player2_card_id.isSome

/-- The `Match` row from `models.py` (columns relevant to game logic), with
its rounds loaded in `round_number` order as the SQLAlchemy relationship
does. -/
structure Match where
  player1_id : PlayerId
  player2_id : PlayerId
  player1_score : Nat
  player2_score : Nat
  winner_id : Option PlayerId
  status : MatchStatus
  player1_deck : Option Deck
  player2_deck : Option Deck
  rounds : List Round
  deriving DecidableEq, Repr

/-! ## Game-engine pure logic (`src/game_engine/game_engine.py`) -/

/-- `MAX_ROUNDS` constant from `game_engine.py`. -/
def MAX_ROUNDS : Nat := 10

/-- `DECK_SIZE` constant from `game_engine.py`. -/
def DECK_SIZE : Nat := 10

/-- `ValidationError` codes from `game_engine.py`; deck validation returns
prose messages in the source, which we identify with the matching codes. -/
inductive ValidationError
  | INVALID_TYPES
  | SAME_PLAYER
  | EMPTY_DECK
  | WRONG_STATUS
  | NOT_PARTICIPANT
  | WRONG_DECK_SIZE
  | DUPLICATE_CARDS
  | CARD_NOT_IN_DECK
  | ALREADY_MOVED_THIS_ROUND
  | CARD_ALREADY_PLAYED
  | NO_DECK
  deriving DecidableEq, Repr

/-- `GameEngine.validate_deck_submission`. The Python type checks
(`isinstance(..., int)`, `isinstance(..., list)`) are enforced by typing here.
`len(set(ids))` is the length of the duplicate-free projection. -/
def validate_deck_submission (deck_card_ids : List CardId) (player_id : PlayerId)
    (m : Match) : Option ValidationError :=
  if deck_card_ids = [] then some .EMPTY_DECK
  else if m.status ≠ .SETUP then some .WRONG_STATUS
  else if player_id ≠ m.player1_id ∧ player_id ≠ m.player2_id then some .NOT_PARTICIPANT
  else if deck_card_ids.length ≠ DECK_SIZE then some .WRONG_DECK_SIZE
  else if deck_card_ids.dedup.length ≠ deck_card_ids.length then some .DUPLICATE_CARDS
  else none

/-- `GameEngine.should_start_match`. -/
def should_start_match (m : Match) : Bool :=
  m.player1_deck.isSome && m.player2_deck.isSome

/-- The deck selection `match.player1_deck if player_id == match.player1_id
else match.player2_deck` used by move validation and stat lookup. -/
def playerDeck (m : Match) (player_id : PlayerId) : Option Deck :=
  if player_id = m.player1_id then m.player1_deck else m.player2_deck

/-- The "already submitted this round" check of
`GameEngine.validate_move_submission`. -/
def alreadyMoved (m : Match) (player_id : PlayerId) (current_round : Option Round) :
    Bool :=
  match current_round with
  | none => false
  | some cr =>
    if player_id = m.player1_id then cr.player1_card_id.isSome
    else cr.player2_card_id.isSome

/-- The "card already played" scan of `GameEngine.validate_move_submission`:
`card_id in [round_obj.player1_card_id, round_obj.player2_card_id]` over all
completed rounds. -/
def cardAlreadyPlayed (card_id : CardId) (all_rounds : List Round) : Bool :=
  all_rounds.any (fun r =>
    r.player1_card_id == some card_id || r.player2_card_id == some card_id)

/-- `GameEngine.validate_move_submission`. Python `not player_deck` is true
both for `None` and for an empty dict, hence the two `NO_DECK` branches. -/
def validate_move_submission (player_id : PlayerId) (card_id : CardId) (m : Match)
    (current_round : Option Round) (all_rounds : List Round) :
    Option ValidationError :=
  if m.status ≠ .IN_PROGRESS then some .WRONG_STATUS
  else if player_id ≠ m.player1_id ∧ player_id ≠ m.player2_id then some .NOT_PARTICIPANT
  else
    match playerDeck m player_id with
    | none => some .NO_DECK
    | some deck =>
      if deck = [] then some .NO_DECK
      else if (dictLookup deck card_id).isNone then some .CARD_NOT_IN_DECK
      else if alreadyMoved m player_id current_round then some .ALREADY_MOVED_THIS_ROUND
      else if cardAlreadyPlayed card_id all_rounds then some .CARD_ALREADY_PLAYED
      else none

/-- `GameEngine.get_card_stats`; the Python `KeyError` on a missing card is
the `none` case. -/
def get_card_stats (m : Match) (player_id : PlayerId) (card_id : CardId) :
    Option CardStats :=
  (playerDeck m player_id).bind (fun deck => dictLookup deck card_id)

/-- `GameEngine.calculate_round_scores`; `none` models the `KeyError` raised
when a card or category is missing from the stored deck data. -/
def calculate_round_scores (m : Match) (current_round : Round) :
    Option (Int × Int) := do
  let c1 ← current_round.player1_card_id
  let c2 ← current_round.player2_card_id
  let st1 ← get_card_stats m m.player1_id c1
  let st2 ← get_card_stats m m.player2_id c2
  let s1 ← dictLookup st1 current_round.category
  let s2 ← dictLookup st2 current_round.category
  pure (s1, s2)

/-- `GameEngine.calculate_round_winner`: returns `(winner_id or None, is_draw)`. -/
def calculate_round_winner (score_p1 score_p2 : Int) (player1_id player2_id : PlayerId) :
    Option PlayerId × Bool :=
  if score_p1 > score_p2 then (some player1_id, false)
  else if score_p2 > score_p1 then (some player2_id, false)
  else (none, true)

/-- `GameEngine.update_match_scores` (functional image of the mutation). -/
def update_match_scores (m : Match) (round_winner_id : Option PlayerId) : Match :=
  if round_winner_id = some m.player1_id then
    { m with player1_score := m.player1_score + 1 }
  else if round_winner_id = some m.player2_id then
    { m with player2_score := m.player2_score + 1 }
  else m

/-- `GameEngine.should_end_match`. -/
def should_end_match (m : Match) : Bool :=
  MAX_ROUNDS ≤ (m.rounds.filter (fun r => r.is_complete)).length

/-- `GameEngine.determine_match_winner`. -/
def determine_match_winner (player1_score player2_score : Nat)
    (player1_id player2_id : PlayerId) : Option PlayerId :=
  if player1_score > player2_score then some player1_id
  else if player2_score > player1_score then some player2_id
  else none

/-- `GameEngine.finalize_match` (functional image of the mutation). -/
def finalize_match (m : Match) : Match :=
  { m with
    status := .FINISHED
    winner_id := determine_match_winner m.player1_score m.player2_score
      m.player1_id m.player2_id }

/-- `GameEngine.get_next_round_number`. -/
def get_next_round_number (m : Match) : Nat :=
  (m.rounds.filter (fun r => r.is_complete)).length + 1

/-! ## Repositories (`src/game_engine/repositories.py`) -/

/-- One selection step for the smallest-`round_number` round. -/
def minRoundStep (acc : Option Round) (r : Round) : Option Round :=
  match acc with
  | none => some r
  | some b => if r.round_number < b.round_number then some r else some b

/-- `RoundRepository.find_current_incomplete_round`: the incomplete round
with the smallest `round_number` (the SQL query filters on a null card slot,
orders by `round_number` and takes the first row; round numbers are unique
per match). -/
def find_current_incomplete_round (rounds : List Round) : Option Round :=
  (rounds.filter (fun r => !r.is_complete)).foldl minRoundStep none

/-- `RoundRepository.find_completed_rounds`. -/
def find_completed_rounds (rounds : List Round) : List Round :=
  rounds.filter (fun r => r.is_complete)

/-! ## Service layer (`src/game_engine/services.py`) -/

/-- A freshly created round as built by `MatchService._create_new_round`
(via `RoundRepository.create`). -/
def mkRound (round_number : Nat) (category : Category) : Round :=
  { round_number := round_number
    category := category
    player1_card_id := none
    player2_card_id := none
    winner_id := none }

/-- Writing `current_round.winner_id` in `MatchService._process_round`.
The Python code mutates the round object in place; its image on the match's
round list updates the (unique, by the `UNIQUE(match_id, round_number)`
constraint) round carrying that `round_number`. -/
def setRoundWinner (w : Option PlayerId) (rn : Nat) (rounds : List Round) :
    List Round :=
  rounds.map (fun r => if r.round_number = rn then { r with winner_id := w } else r)

/-- Writing `current_round.playerN_card_id = card_id` in
`MatchService.submit_move`; same in-place mutation pattern as
`setRoundWinner`. -/
def recordCard (m : Match) (player_id : PlayerId) (card_id : CardId) (rn : Nat) :
    List Round :=
  m.rounds.map (fun r =>
    if r.round_number = rn then
      if player_id = m.player1_id then { r with player1_card_id := some card_id }
      else { r with player2_card_id := some card_id }
    else r)

/-- `MatchService._process_round`. `nextCategory` stands for the
`random.choice(CARD_CATEGORIES)` draw used when a next round is created;
`none` models the exception raised on a `KeyError` during scoring. Returns
the updated match, the round winner, and the `is_draw` flag. -/
def process_round (m : Match) (current_round : Round) (nextCategory : Category) :
    Option (Match × Option PlayerId × Bool) :=
  match calculate_round_scores m current_round with
  | none => none
  | some (s1, s2) =>
    let wd := calculate_round_winner s1 s2 m.player1_id m.player2_id
    let m1 : Match :=
      { m with rounds := setRoundWinner wd.1 current_round.round_number m.rounds }
    let m2 := update_match_scores m1 wd.1
    if should_end_match m2 then some (finalize_match m2, wd.1, wd.2)
    else
      let nr := mkRound (get_next_round_number m2) nextCategory
      some ({ m2 with rounds := m2.rounds ++ [nr] }, wd.1, wd.2)

/-- Result of `MatchService.submit_move`; error constructors model the
exceptions the service raises. -/
inductive SubmitMoveResult
  | noActiveRound
  | wrongRound (expected got : Nat)
  | invalid (e : ValidationError)
  | scoringError
  | waitingForOpponent (m : Match)
  | roundProcessed (m : Match) (round_winner_id : Option PlayerId) (is_draw : Bool)
  deriving DecidableEq, Repr

/-- `MatchService.submit_move` on a loaded match (the `LookupError` branch
for a missing match id is handled by the caller and not modelled here). -/
def submit_move (m : Match) (player_id : PlayerId) (card_id : CardId)
    (round_number : Nat) (nextCategory : Category) : SubmitMoveResult :=
  match find_current_incomplete_round m.rounds with
  | none => .noActiveRound
  | some expected =>
    if expected.round_number ≠ round_number then
      .wrongRound expected.round_number round_number
    else
      match validate_move_submission player_id card_id m (some expected)
          (find_completed_rounds m.rounds) with
      | some e => .invalid e
      | none =>
        let m' : Match := { m with rounds := recordCard m player_id card_id round_number }
        let cr' : Round :=
          if player_id = m.player1_id then
            { expected with player1_card_id := some card_id }
          else
            { expected with player2_card_id := some card_id }
        if !cr'.is_complete then .waitingForOpponent m'
        else
          match process_round m' cr' nextCategory with
          | none => .scoringError
          | some (m'', w, d) => .roundProcessed m'' w d

/-- Result of `MatchService.submit_deck`. -/
inductive SubmitDeckResult
  | invalid (e : ValidationError)
  | catalogueError
  | ok (m : Match)
  deriving DecidableEq, Repr

/-- `MatchService.submit_deck` on a loaded match. `fetch` stands for
`_fetch_card_stats_from_ids` (the catalogue RPC); `none` models its raised
errors, which abort before any deck is stored. `round1Category` is the
random category drawn if round 1 is created. -/
def submit_deck (m : Match) (player_id : PlayerId) (deck_card_ids : List CardId)
    (fetch : List CardId → Option Deck) (round1Category : Category) :
    SubmitDeckResult :=
  match validate_deck_submission deck_card_ids player_id m with
  | some e => .invalid e
  | none =>
    match fetch deck_card_ids with
    | none => .catalogueError
    | some validated_deck =>
      let m1 : Match :=
        if player_id = m.player1_id then { m with player1_deck := some validated_deck }
        else { m with player2_deck := some validated_deck }
      if should_start_match m1 then
        let m2 : Match := { m1 with status := .IN_PROGRESS }
        .ok { m2 with rounds := m2.rounds ++ [mkRound (get_next_round_number m2) round1Category] }
      else .ok m1

/-- Result of `MatchService.get_match`. -/
inductive GetMatchResult
  | attributeError
  | permissionDenied
  | notFound
  | ok (m : Match)
  deriving DecidableEq, Repr

/-- `MatchService.get_match` (services.py lines 150-168). When the match id
is absent the Python code evaluates `match.player1_id` on `None` and raises
`AttributeError` (an unexpected internal error) before ever reaching its
`raise LookupError("Match not found")` line; `attributeError` models that
exception and `notFound` models the unreachable `LookupError` branch. The
`include_rounds` flag only controls eager loading and is dropped. -/
def get_match (store : Nat → Option Match) (match_id : Nat)
    (requester_id : PlayerId) : GetMatchResult :=
  match store match_id with
  | none => .attributeError
  | some m =>
    if m.player1_id ≠ requester_id ∧ m.player2_id ≠ requester_id then
      .permissionDenied
    else .ok m

/-- The multiset of cards recorded for player 1 across a match's rounds. -/
def playedCards1 (rounds : List Round) : List CardId :=
  rounds.filterMap (fun r => r.player1_card_id)

/-- The multiset of cards recorded for player 2 across a match's rounds. -/
def playedCards2 (rounds : List Round) : List CardId :=
  rounds.filterMap (fun r => r.player2_card_id)

/-! ## Matchmaking coordinator (`src/matchmaking/routes.py`)

User ids are the strings `str(get_jwt_identity())`; timestamps are the
`time.time()` floats, embedded as rationals. The queue is the Redis sorted
set keyed by user id, the statuses the Redis hash of JSON snapshots. -/

abbrev UserId := String
abbrev Token := String
abbrev Time := ℚ

/-- Constant `WAITING` in `routes.py`. -/
def WAITING : String := "waiting"

/-- Constant `MATCHED` in `routes.py`. -/
def MATCHED : String := "matched"

/-- The JSON status snapshot stored per user (fields written by
`_waiting_payload` / `_matched_payload`; absent keys are `none`). -/
structure StatusPayload where
  status : String
  token : Option Token
  match_id : Option Nat
  opponent_id : Option UserId
  queued_at : Option Time
  matched_at : Option Time
  updated_at : Option Time
  deriving DecidableEq, Repr

/-- Python truthiness of an optional number (`None` and `0` are falsy). -/
def truthyNat (o : Option Nat) : Bool :=
  match o with
  | none => false
  | some n => decide (n ≠ 0)

/-- Python truthiness of an optional string (`None` and `""` are falsy). -/
def truthyTok (o : Option Token) : Bool :=
  match o with
  | none => false
  | some t => decide (t ≠ "")

/-- Python falsiness of an optional float score (`None` and `0.0`). -/
def falsyScore (o : Option Time) : Bool :=
  match o with
  | none => true
  | some s => decide (s = 0)

/-- `_waiting_payload(token, queued_at)`. -/
def waitingPayload (token : Token) (queued_at : Time) : StatusPayload :=
  { status := WAITING
    token := some token
    match_id := none
    opponent_id := none
    queued_at := some queued_at
    matched_at := none
    updated_at := some queued_at }

/-- `_matched_payload(token, match_id, opponent_id, queued_at)` evaluated at
wall-clock `now`; `queued_at` is kept only when truthy. -/
def matchedPayload (token : Token) (match_id : Nat) (opponent_id : UserId)
    (queued_at : Option Time) (now : Time) : StatusPayload :=
  { status := MATCHED
    token := some token
    match_id := some match_id
    opponent_id := some opponent_id
    queued_at := if falsyScore queued_at then none else queued_at
    matched_at := some now
    updated_at := some now }

/-- The matchmaking Redis state: the `matchmaking:queue` sorted set and the
status-snapshot hash. -/
structure MMState where
  queue : List (UserId × Time)
  statuses : List (UserId × StatusPayload)
  deriving DecidableEq, Repr

/-- Redis `zscore`. -/
def zscore (q : List (UserId × Time)) (u : UserId) : Option Time :=
  dictLookup q u

/-- Redis `zcard`. -/
def zcard (q : List (UserId × Time)) : Nat := q.length

/-- Redis `zadd` (member set keyed by user id; adds or updates the score). -/
def zadd (q : List (UserId × Time)) (u : UserId) (s : Time) :
    List (UserId × Time) :=
  dictSet q u s

/-- Redis `zrem`. -/
def zrem (q : List (UserId × Time)) (u : UserId) : List (UserId × Time) :=
  q.filter (fun p => p.1 ≠ u)

/-- Redis `hget` on the status hash. -/
def hget (h : List (UserId × StatusPayload)) (u : UserId) : Option StatusPayload :=
  dictLookup h u

/-- Redis `hset` on the status hash. -/
def hset (h : List (UserId × StatusPayload)) (u : UserId) (v : StatusPayload) :
    List (UserId × StatusPayload) :=
  dictSet h u v

/-- Redis `hdel` on the status hash. -/
def hdel (h : List (UserId × StatusPayload)) (u : UserId) :
    List (UserId × StatusPayload) :=
  h.filter (fun p => p.1 ≠ u)

/-- Sorted-set ordering: by score, ties broken lexicographically by member,
as Redis orders entries. -/
def entryLt (a b : UserId × Time) : Bool :=
  decide (a.2 < b.2) || (decide (a.2 = b.2) && decide (a.1 < b.1))

/-- The minimal entry of the sorted set, if any. -/
def zminEntry (q : List (UserId × Time)) : Option (UserId × Time) :=
  q.foldl
    (fun acc e =>
      match acc with
      | none => some e
      | some b => if entryLt e b then some e else some b)
    none

/-- Redis `zpopmin(2)`: the (up to two) popped minimal entries and the
remaining set. -/
def zpopmin2 (q : List (UserId × Time)) :
    List (UserId × Time) × List (UserId × Time) :=
  match zminEntry q with
  | none => ([], q)
  | some e1 =>
    let q1 := zrem q e1.1
    match zminEntry q1 with
    | none => ([e1], q1)
    | some e2 => ([e1, e2], zrem q1 e2.1)

/-- `_ensure_tokens(conn, status_key, player_ids, provided)`: fill a token
for every player, preferring a truthy provided token, then a truthy stored
token, then a fresh uuid (`freshFor`). -/
def ensure_tokens (h : List (UserId × StatusPayload)) (player_ids : List UserId)
    (provided : List (UserId × Token)) (freshFor : UserId → Token) :
    List (UserId × Token) :=
  player_ids.foldl
    (fun acc pid =>
      if truthyTok (dictLookup acc pid) then acc
      else
        match (hget h pid).bind (fun p => p.token) with
        | some t => if t = "" then dictSet acc pid (freshFor pid) else dictSet acc pid t
        | none => dictSet acc pid (freshFor pid))
    provided

/-- `_requeue_players_atomic`: re-add every player at a fresh timestamp
starting from `now`, consecutive players 1e-6 apart, overwriting their
status snapshots with new WAITING payloads. -/
def requeue_players_atomic (st : MMState) (player_tokens : List (UserId × Token))
    (now : Time) : MMState :=
  match player_tokens with
  | [] => st
  | (pid, tok) :: rest =>
    requeue_players_atomic
      { queue := zadd st.queue pid now
        statuses := hset st.statuses pid (waitingPayload tok now) }
      rest (now + 1 / 1000000)

/-- The queue-cap test `not already_waiting and max_size and max_size > 0
and queue_len >= max_size` with Python truthiness on `max_size`. -/
def capReached (max_size : Option Int) (queue_len : Nat) : Bool :=
  match max_size with
  | none => false
  | some k => decide (0 < k) && decide (k ≤ (queue_len : Int))

/-- The result tuple of `_enqueue_atomic` together with the post-transaction
store state. -/
inductive EnqueueResult
  | alreadyMatched (token : Token) (existing : StatusPayload) (st : MMState)
  | full (st : MMState)
  | waiting (token : Token) (st : MMState)
  | matched (players : List UserId) (token : Token)
      (player_tokens : List (UserId × Token)) (st : MMState)
  deriving DecidableEq, Repr

/-- The token reuse `(existing_status or {}).get("token") or uuid4().hex`. -/
def tokenFrom (existing : Option StatusPayload) (fresh : Token) : Token :=
  match existing.bind (fun p => p.token) with
  | some t => if t = "" then fresh else t
  | none => fresh

/-- Body of `_enqueue_atomic` after the already-matched guard; `existing` is
the parsed status snapshot for the user, `fresh` the uuid that would be
generated, `freshFor` the uuids `_ensure_tokens` would draw. -/
def enqueue_atomic_rest (st : MMState) (user_id : UserId) (max_size : Option Int)
    (now : Time) (fresh : Token) (freshFor : UserId → Token)
    (existing : Option StatusPayload) : EnqueueResult :=
  let already_waiting := zscore st.queue user_id
  let queue_len := zcard st.queue
  if falsyScore already_waiting && capReached max_size queue_len then .full st
  else
    let token := tokenFrom existing fresh
    let queue_after_add := queue_len + (if falsyScore already_waiting then 1 else 0)
    let should_add := already_waiting.isNone
    let should_update_status :=
      match existing with
      | none => true
      | some p => !(p.status == WAITING)
    let should_match := decide (2 ≤ queue_after_add)
    if !should_add && !should_match && !should_update_status then .waiting token st
    else
      let q1 := if should_add then zadd st.queue user_id now else st.queue
      let h1 :=
        if should_add || should_update_status then
          hset st.statuses user_id (waitingPayload token now)
        else st.statuses
      if should_match then
        let pr := zpopmin2 q1
        let players := pr.1.map (fun e => e.1)
        let st' : MMState := { queue := pr.2, statuses := h1 }
        let ptoks := ensure_tokens st'.statuses players [(user_id, token)] freshFor
        .matched players token ptoks st'
      else .waiting token { queue := q1, statuses := h1 }

/-- `_enqueue_atomic` (the optimistic-transaction retry loop collapses to a
single run in this sequential model). -/
def enqueue_atomic (st : MMState) (user_id : UserId) (max_size : Option Int)
    (now : Time) (fresh : Token) (freshFor : UserId → Token) : EnqueueResult :=
  match hget st.statuses user_id with
  | some p =>
    if p.status == MATCHED && truthyNat p.match_id then
      .alreadyMatched (tokenFrom (some p) fresh) p st
    else enqueue_atomic_rest st user_id max_size now fresh freshFor (some p)
  | none => enqueue_atomic_rest st user_id max_size now fresh freshFor none

/-- HTTP response of the `/enqueue` endpoint. -/
inductive EnqueueResp
  | profileRequired
  | queueFull
  | matchedExisting (match_id : Option Nat) (opponent_id : Option UserId)
      (queue_token : Option Token)
  | engineCall (players : List UserId) (player_tokens : List (UserId × Token))
  | waitingOk (queue_token : Token)
  deriving DecidableEq, Repr

/-- HTTP status code attached to each `/enqueue` response (the
`engineCall` branch hands off to `call_game_engine`, whose code depends on
the engine reply, marked 0 here). -/
def EnqueueResp.httpCode : EnqueueResp → Nat
  | .profileRequired => 403
  | .queueFull => 409
  | .matchedExisting _ _ _ => 200
  | .engineCall _ _ => 0
  | .waitingOk _ => 202

/-- The `/enqueue` route handler; `profile_ok` is the result of the
player-validation RPC `_validate_player_profile`. -/
def enqueue_endpoint (st : MMState) (user_id : UserId) (profile_ok : Bool)
    (max_size : Option Int) (now : Time) (fresh : Token)
    (freshFor : UserId → Token) : EnqueueResp × MMState :=
  if !profile_ok then (.profileRequired, st)
  else
    match enqueue_atomic st user_id max_size now fresh freshFor with
    | .full st' => (.queueFull, st')
    | .alreadyMatched _ p st' => (.matchedExisting p.match_id p.opponent_id p.token, st')
    | .matched players _ ptoks st' => (.engineCall players ptoks, st')
    | .waiting tok st' => (.waitingOk tok, st')

/-- HTTP response of the `/status` endpoint. -/
inductive StatusResp
  | stale
  | matchedResp (match_id : Option Nat) (opponent_id : Option UserId)
      (queue_token : Option Token)
  | waitingResp (queue_token : Option Token) (in_queue : Bool)
  | engineMatched (match_id : Nat) (opponent_id : Option UserId)
  | hydratedWaiting (queue_token : Token)
  | notQueued
  deriving DecidableEq, Repr

/-- HTTP status code of each `/status` response. -/
def StatusResp.httpCode : StatusResp → Nat
  | .stale => 409
  | .matchedResp _ _ _ => 200
  | .waitingResp _ _ => 200
  | .engineMatched _ _ => 200
  | .hydratedWaiting _ => 200
  | .notQueued => 404

/-- The stale-token guard `payload and token_filter and
payload.get("token") != token_filter` (an empty filter string is falsy). -/
def staleGuard (p : StatusPayload) (token_filter : Option Token) : Bool :=
  match token_filter with
  | none => false
  | some tf => decide (tf ≠ "") && !(p.token == some tf)

/-- Fallback tail of the `/status` handler: engine lookup
(`_lookup_active_match`, passed in as `engineLookup`), then queue-membership
hydration, then 404. -/
def status_fallback (st : MMState) (user_id : UserId)
    (engineLookup : Option (Nat × Option UserId)) (fresh : Token) (now : Time) :
    StatusResp × MMState :=
  match engineLookup with
  | some (mid, oid) => (.engineMatched mid oid, st)
  | none =>
    if (zscore st.queue user_id).isSome then
      (.hydratedWaiting fresh,
        { st with statuses := hset st.statuses user_id (waitingPayload fresh now) })
    else (.notQueued, st)

/-- The `/status` route handler. Note the matched branch deletes the stored
snapshot (`conn.hdel`) before returning it. -/
def status_endpoint (st : MMState) (user_id : UserId) (token_filter : Option Token)
    (engineLookup : Option (Nat × Option UserId)) (fresh : Token) (now : Time) :
    StatusResp × MMState :=
  match hget st.statuses user_id with
  | some p =>
    if staleGuard p token_filter then (.stale, st)
    else if p.status == MATCHED && truthyNat p.match_id then
      (.matchedResp p.match_id p.opponent_id p.token,
        { st with statuses := hdel st.statuses user_id })
    else if p.status == WAITING then
      (.waitingResp p.token (zscore st.queue user_id).isSome, st)
    else status_fallback st user_id engineLookup fresh now
  | none => status_fallback st user_id engineLookup fresh now

/-- HTTP response of the `/dequeue` endpoint. -/
inductive DequeueResp
  | matchedConflict (match_id : Option Nat) (opponent_id : Option UserId)
  | removed
  | notInQueue
  deriving DecidableEq, Repr

/-- HTTP status code of each `/dequeue` response. -/
def DequeueResp.httpCode : DequeueResp → Nat
  | .matchedConflict _ _ => 409
  | .removed => 200
  | .notInQueue => 409

/-- Removal tail of the `/dequeue` handler: `zrem` + `hdel`, then 200 if the
queue entry existed, else the 409 "Player not found in queue" reply. -/
def dequeue_removal (st : MMState) (user_id : UserId) : DequeueResp × MMState :=
  let was_in_queue := (zscore st.queue user_id).isSome
  let st' : MMState :=
    { queue := zrem st.queue user_id, statuses := hdel st.statuses user_id }
  if was_in_queue then (.removed, st') else (.notInQueue, st')

/-- The `/dequeue` route handler. The request token is never read: the
lookup is keyed by the authenticated user id alone. -/
def dequeue_endpoint (st : MMState) (user_id : UserId) : DequeueResp × MMState :=
  match hget st.statuses user_id with
  | some p =>
    if p.status == MATCHED then (.matchedConflict p.match_id p.opponent_id, st)
    else dequeue_removal st user_id
  | none => dequeue_removal st user_id

/-! ## Shared lemmas about the store primitives -/

lemma dictLookup_dictSet {α β : Type} [DecidableEq α] (l : List (α × β))
    (k k' : α) (v : β) :
    dictLookup (dictSet l k v) k' = if k = k' then some v else dictLookup l k' := by
  induction l with
  | nil => by_cases h : k = k' <;> simp [dictSet, dictLookup, h]
  | cons p rest ih =>
    obtain ⟨a, b⟩ := p
    by_cases hak : a = k
    · subst hak
      by_cases hkk : a = k' <;> simp [dictSet, dictLookup, hkk]
    · by_cases hak' : a = k'
      · subst hak'
        have hka : ¬ k = a := fun hh => hak hh.symm
        simp [dictSet, dictLookup, hak, hka]
      · simp [dictSet, dictLookup, hak, hak', ih]

lemma dictLookup_dictSet_self {α β : Type} [DecidableEq α] (l : List (α × β))
    (k : α) (v : β) : dictLookup (dictSet l k v) k = some v := by
  simp [dictLookup_dictSet]

lemma dictLookup_dictSet_ne {α β : Type} [DecidableEq α] (l : List (α × β))
    (k k' : α) (v : β) (h : k ≠ k') :
    dictLookup (dictSet l k v) k' = dictLookup l k' := by
  simp [dictLookup_dictSet, h]

lemma dictLookup_erase_self {α β : Type} [DecidableEq α] (l : List (α × β))
    (u : α) : dictLookup (l.filter (fun p => p.1 ≠ u)) u = none := by
  induction l with
  | nil => rfl
  | cons p rest ih =>
    obtain ⟨a, b⟩ := p
    by_cases ha : a = u
    · simpa [List.filter_cons, ha] using ih
    · simpa [List.filter_cons, ha, dictLookup] using ih

lemma zpopmin2_rest_mem (q : List (UserId × Time)) :
    ∀ e ∈ (zpopmin2 q).2, e ∈ q := by
  intro e he
  unfold zpopmin2 at he
  cases h1 : zminEntry q with
  | none => simpa [h1] using he
  | some e1 =>
    simp only [h1] at he
    cases h2 : zminEntry (zrem q e1.1) with
    | none =>
      simp only [h2] at he
      exact List.mem_of_mem_filter he
    | some e2 =>
      simp only [h2] at he
      exact List.mem_of_mem_filter (List.mem_of_mem_filter he)

lemma ensure_tokens_keeps (h : List (UserId × StatusPayload)) (ps : List UserId)
    (provided : List (UserId × Token)) (ff : UserId → Token) (u : UserId)
    (t : Token) (ht : t ≠ "") (hu : dictLookup provided u = some t) :
    dictLookup (ensure_tokens h ps provided ff) u = some t := by
  unfold ensure_tokens
  induction ps generalizing provided with
  | nil => exact hu
  | cons pid rest ih =>
    simp only [List.foldl_cons]
    apply ih
    by_cases hmem : truthyTok (dictLookup provided pid)
    · simpa [hmem] using hu
    · have hpid : pid ≠ u := by
        intro hpu
        subst hpu
        rw [hu] at hmem
        simp [truthyTok, ht] at hmem
      cases hst : (hget h pid).bind (fun p => p.token) with
      | none => simpa [hmem, hst, dictLookup_dictSet_ne _ _ _ _ hpid] using hu
      | some t' =>
        by_cases ht' : t' = "" <;>
          simpa [hmem, hst, ht', dictLookup_dictSet_ne _ _ _ _ hpid] using hu

/-! ## Theorems settling the claims -/

/-- Claim C9: the claim says `GetMatch` on a missing match id returns
NotFound (404). Evaluating the service at a missing id shows it instead
performs the attribute access `match.player1_id` on `None` — an
`AttributeError`, surfaced as an internal error — and never reaches its
`LookupError("Match not found")` branch, which is dead code. -/
theorem C9_get_match_missing_internal_error :
    get_match (fun _ => none) 7 1 = GetMatchResult.attributeError ∧
    GetMatchResult.attributeError ≠ GetMatchResult.notFound :=
  ⟨rfl, by decide⟩

/-- Claim C4 counterexample: user "10" was popped with original
`queued_at` score 5 (still recorded in their status snapshot); the requeue
after an engine failure re-inserts them at the current time 100, not at
their original score 5, so the original enqueue time is lost. -/
theorem C4_requeue_fresh_timestamp_counterexample :
    (hget (⟨[], [("10", waitingPayload "t10" 5)]⟩ : MMState).statuses "10").bind
        (fun p => p.queued_at) = some 5 ∧
    zscore (requeue_players_atomic ⟨[], [("10", waitingPayload "t10" 5)]⟩
        [("10", "t10")] 100).queue "10" = some 100 ∧
    (100 : Time) ≠ 5 :=
  ⟨rfl, rfl, by norm_num⟩

/-- Claim C5 counterexample: reading the status of user "1", whose stored
snapshot is MATCHED on match 99, returns the matched payload but deletes
the stored record, so a repeated read no longer finds it. -/
theorem C5_status_consumes_matched_counterexample :
    status_endpoint ⟨[], [("1", matchedPayload "tk" 99 "2" (some 5) 6)]⟩ "1"
        none none "fresh" 50
      = (StatusResp.matchedResp (some 99) (some "2") (some "tk"),
         (⟨[], []⟩ : MMState)) ∧
    hget (⟨[], []⟩ : MMState).statuses "1" = none :=
  ⟨rfl, rfl⟩

/-- Claim C7 counterexample: dequeue by a user with no stored status and no
queue entry answers 409 "Player not found in queue", not the 404 invalid-token
reply the claim requires. -/
theorem C7_dequeue_invalid_409_counterexample :
    dequeue_endpoint ⟨[], []⟩ "7" = (DequeueResp.notInQueue, (⟨[], []⟩ : MMState)) ∧
    DequeueResp.httpCode DequeueResp.notInQueue = 409 ∧ (409 : Nat) ≠ 404 :=
  ⟨rfl, rfl, by decide⟩

/-- A deck already stored for player 1 in the C8 counterexample match. -/
def oldDeckC8 : Deck := [(100, [("economy", 1)])]

/-- C8 counterexample match: still in SETUP with player 1's deck stored. -/
def matchC8 : Match :=
  { player1_id := 1, player2_id := 2, player1_score := 0, player2_score := 0,
    winner_id := none, status := .SETUP, player1_deck := some oldDeckC8,
    player2_deck := none, rounds := [] }

/-- The second deck player 1 submits in the C8 counterexample. -/
def idsC8 : List CardId := [1, 2, 3, 4, 5, 6, 7, 8, 9, 10]

/-- Catalogue stub for the C8 counterexample. -/
def fetchC8 : List CardId → Option Deck :=
  fun ids => some (ids.map (fun i => (i, [("economy", i)])))

/-- The stats mapping the C8 resubmission stores. -/
def newDeckC8 : Deck := idsC8.map (fun i => (i, [("economy", i)]))

/-- Claim C8 counterexample: while the match is still in SETUP, a second
`SubmitDeck` by player 1 passes validation and silently overwrites the deck
player 1 had already stored, instead of being rejected. -/
theorem C8_resubmission_overwrites_counterexample :
    submit_deck matchC8 1 idsC8 fetchC8 "economy"
      = SubmitDeckResult.ok { matchC8 with player1_deck := some newDeckC8 } ∧
    some newDeckC8 ≠ matchC8.player1_deck :=
  ⟨by decide, by decide⟩

/-- Claim C8 (amended): decks are immutable only once the match has left
SETUP — any `SubmitDeck` against a non-SETUP match is rejected as a
validation error, so after both decks are present (status `IN_PROGRESS`) no
deck can change; but while the match is still in SETUP a repeated
`SubmitDeck` by the same player passes validation and overwrites that
player's stored deck with the newly fetched one. -/
theorem C8_decks_immutable_amended :
    (∀ (m : Match) (pid : PlayerId) (ids : List CardId)
       (fetch : List CardId → Option Deck) (cat : Category),
       m.status ≠ MatchStatus.SETUP →
       ∃ e, submit_deck m pid ids fetch cat = SubmitDeckResult.invalid e) ∧
    (∀ (m : Match) (pid : PlayerId) (ids : List CardId)
       (fetch : List CardId → Option Deck) (cat : Category) (d : Deck),
       validate_deck_submission ids pid m = none →
       fetch ids = some d → pid = m.player1_id → m.player2_deck = none →
       submit_deck m pid ids fetch cat
         = SubmitDeckResult.ok { m with player1_deck := some d }) := by
  constructor
  · intro m pid ids fetch cat h
    by_cases hids : ids = []
    · exact ⟨.EMPTY_DECK, by simp [submit_deck, validate_deck_submission, hids]⟩
    · exact ⟨.WRONG_STATUS, by simp [submit_deck, validate_deck_submission, hids, h]⟩
  · intro m pid ids fetch cat d hv hf hp h2
    subst hp
    simp [submit_deck, hv, hf, should_start_match, h2]

/-- Witness for C8_decks_immutable_amended: both conjuncts applied at
concrete inputs (an `IN_PROGRESS` match rejects, a SETUP resubmission
overwrites). -/
theorem C8_decks_immutable_amended_witness :
    (∃ e, submit_deck { matchC8 with status := MatchStatus.IN_PROGRESS } 1 idsC8
        fetchC8 "economy" = SubmitDeckResult.invalid e) ∧
    submit_deck matchC8 1 idsC8 fetchC8 "economy"
      = SubmitDeckResult.ok { matchC8 with player1_deck := some newDeckC8 } :=
  ⟨C8_decks_immutable_amended.1 _ 1 idsC8 fetchC8 "economy" (by decide),
   C8_decks_immutable_amended.2 matchC8 1 idsC8 fetchC8 "economy" newDeckC8
     (by decide) rfl (by decide) rfl⟩

/-- Claim C10: for a user whose stored matchmaking status is MATCHED with a
(truthy) match_id, a further Enqueue call does not touch the queue or any
stored state and answers 200 with the stored match_id, opponent_id and
queue_token. -/
theorem C10_enqueue_already_matched_noop (st : MMState) (u : UserId)
    (p : StatusPayload) (mid : Nat) (max_size : Option Int) (now : Time)
    (fresh : Token) (freshFor : UserId → Token)
    (hp : hget st.statuses u = some p) (hstat : p.status = MATCHED)
    (hmid : p.match_id = some mid) (hmid0 : mid ≠ 0) :
    enqueue_endpoint st u true max_size now fresh freshFor
      = (EnqueueResp.matchedExisting p.match_id p.opponent_id p.token, st) ∧
    EnqueueResp.httpCode
        (EnqueueResp.matchedExisting p.match_id p.opponent_id p.token) = 200 := by
  refine ⟨?_, rfl⟩
  simp [enqueue_endpoint, enqueue_atomic, hp, hstat, hmid, truthyNat, hmid0, MATCHED]

/-- Witness for C10_enqueue_already_matched_noop at a concrete matched
user. -/
theorem C10_enqueue_already_matched_noop_witness :
    enqueue_endpoint ⟨[], [("5", matchedPayload "tk" 42 "6" (some 3) 4)]⟩ "5" true
        none 9 "fr" (fun _ => "fr2")
      = (EnqueueResp.matchedExisting (some 42) (some "6") (some "tk"),
         ⟨[], [("5", matchedPayload "tk" 42 "6" (some 3) 4)]⟩) ∧
    EnqueueResp.httpCode (EnqueueResp.matchedExisting (some 42) (some "6") (some "tk"))
      = 200 :=
  C10_enqueue_already_matched_noop ⟨[], [("5", matchedPayload "tk" 42 "6" (some 3) 4)]⟩
    "5" (matchedPayload "tk" 42 "6" (some 3) 4) 42 none 9 "fr" (fun _ => "fr2")
    rfl rfl rfl (by decide)

/-- Claim C6: Enqueue is idempotent for a waiting user. If user `u` holds a
WAITING snapshot with token `t` and sits in the queue at a (positive) score,
`_enqueue_atomic` hands back exactly token `t` — either returning Waiting
with the store untouched, or (when a second waiting entry lets the call
trigger pairing) popping entries without adding any: no fresh token is
generated for `u` and no queue entry is added. -/
theorem C6_enqueue_idempotent_waiting (st : MMState) (u : UserId)
    (p : StatusPayload) (t : Token) (s : Time) (max_size : Option Int)
    (now : Time) (fresh : Token) (freshFor : UserId → Token)
    (hp : hget st.statuses u = some p) (hstat : p.status = WAITING)
    (htok : p.token = some t) (ht : t ≠ "")
    (hq : zscore st.queue u = some s) (hs : s ≠ 0) :
    enqueue_atomic st u max_size now fresh freshFor = EnqueueResult.waiting t st ∨
    ∃ players ptoks q2,
      enqueue_atomic st u max_size now fresh freshFor
        = EnqueueResult.matched players t ptoks ⟨q2, st.statuses⟩ ∧
      (∀ e ∈ q2, e ∈ st.queue) ∧ dictLookup ptoks u = some t := by
  have hguard : ¬ (p.status == MATCHED && truthyNat p.match_id) = true := by
    simp [hstat, WAITING, MATCHED]
  have htokenFrom : tokenFrom (some p) fresh = t := by
    simp [tokenFrom, htok, ht]
  by_cases hql : 2 ≤ zcard st.queue
  · right
    refine ⟨(zpopmin2 st.queue).1.map (fun e => e.1),
      ensure_tokens st.statuses ((zpopmin2 st.queue).1.map (fun e => e.1))
        [(u, t)] freshFor, (zpopmin2 st.queue).2, ?_, zpopmin2_rest_mem st.queue, ?_⟩
    · simp [enqueue_atomic, hp, hguard, enqueue_atomic_rest, hq, falsyScore, hs,
        htokenFrom, hstat, WAITING, MATCHED, hql]
    · exact ensure_tokens_keeps _ _ _ _ u t ht (by simp [dictLookup])
  · left
    simp [enqueue_atomic, hp, hguard, enqueue_atomic_rest, hq, falsyScore, hs,
      htokenFrom, hstat, WAITING, MATCHED, hql]

/-- Witness for C6_enqueue_idempotent_waiting: user "1" waiting alone in the
queue re-enqueues and gets the same token back with the store untouched. -/
theorem C6_enqueue_idempotent_waiting_witness :
    enqueue_atomic ⟨[("1", 5)], [("1", waitingPayload "ta" 5)]⟩ "1" none 7 "f"
        (fun _ => "g")
      = EnqueueResult.waiting "ta" ⟨[("1", 5)], [("1", waitingPayload "ta" 5)]⟩ ∨
    ∃ players ptoks q2,
      enqueue_atomic ⟨[("1", 5)], [("1", waitingPayload "ta" 5)]⟩ "1" none 7 "f"
          (fun _ => "g")
        = EnqueueResult.matched players "ta" ptoks
            ⟨q2, (⟨[("1", 5)], [("1", waitingPayload "ta" 5)]⟩ : MMState).statuses⟩ ∧
      (∀ e ∈ q2, e ∈ (⟨[("1", 5)], [("1", waitingPayload "ta" 5)]⟩ : MMState).queue) ∧
      dictLookup ptoks "1" = some "ta" :=
  C6_enqueue_idempotent_waiting ⟨[("1", 5)], [("1", waitingPayload "ta" 5)]⟩ "1"
    (waitingPayload "ta" 5) "ta" 5 none 7 "f" (fun _ => "g")
    rfl rfl rfl (by decide) rfl (by norm_num)

/-- Claim C7 (amended): Dequeue is keyed by the authenticated user and the
request token is ignored. It returns exactly one of three outcomes: a 409
conflict carrying the stored match_id and opponent_id when the stored status
is MATCHED, leaving the store unchanged; 200 Removed when the user had a
queue entry (entry and status snapshot both deleted); and a 409 "Player not
found in queue" reply — not a 404 — when the user has no queue entry (any
non-MATCHED status snapshot is deleted as well). -/
theorem C7_dequeue_amended :
    (∀ (st : MMState) (u : UserId) (p : StatusPayload),
       hget st.statuses u = some p → p.status = MATCHED →
       dequeue_endpoint st u
         = (DequeueResp.matchedConflict p.match_id p.opponent_id, st) ∧
       DequeueResp.httpCode (DequeueResp.matchedConflict p.match_id p.opponent_id)
         = 409) ∧
    (∀ (st : MMState) (u : UserId),
       (∀ p, hget st.statuses u = some p → p.status ≠ MATCHED) →
       (zscore st.queue u).isSome →
       dequeue_endpoint st u
         = (DequeueResp.removed, ⟨zrem st.queue u, hdel st.statuses u⟩) ∧
       DequeueResp.httpCode DequeueResp.removed = 200) ∧
    (∀ (st : MMState) (u : UserId),
       (∀ p, hget st.statuses u = some p → p.status ≠ MATCHED) →
       zscore st.queue u = none →
       dequeue_endpoint st u
         = (DequeueResp.notInQueue, ⟨zrem st.queue u, hdel st.statuses u⟩) ∧
       DequeueResp.httpCode DequeueResp.notInQueue = 409) := by
  refine ⟨?_, ?_, ?_⟩
  · intro st u p hp hstat
    exact ⟨by simp [dequeue_endpoint, hp, hstat], rfl⟩
  · intro st u hnm hq
    refine ⟨?_, rfl⟩
    cases hp : hget st.statuses u with
    | none => simp [dequeue_endpoint, hp, dequeue_removal, hq]
    | some p =>
      have : ¬ (p.status == MATCHED) = true := by simp [hnm p hp]
      simp [dequeue_endpoint, hp, this, dequeue_removal, hq]
  · intro st u hnm hq
    refine ⟨?_, rfl⟩
    cases hp : hget st.statuses u with
    | none => simp [dequeue_endpoint, hp, dequeue_removal, hq]
    | some p =>
      have : ¬ (p.status == MATCHED) = true := by simp [hnm p hp]
      simp [dequeue_endpoint, hp, this, dequeue_removal, hq]

/-- Witness for C7_dequeue_amended: all three branches applied at concrete
states. -/
theorem C7_dequeue_amended_witness :
    (dequeue_endpoint ⟨[], [("9", matchedPayload "tk" 99 "8" (some 2) 3)]⟩ "9"
       = (DequeueResp.matchedConflict (some 99) (some "8"),
          ⟨[], [("9", matchedPayload "tk" 99 "8" (some 2) 3)]⟩) ∧
     DequeueResp.httpCode (DequeueResp.matchedConflict (some 99) (some "8")) = 409) ∧
    (dequeue_endpoint ⟨[("3", 7)], [("3", waitingPayload "tw" 7)]⟩ "3"
       = (DequeueResp.removed,
          ⟨zrem [("3", 7)] "3", hdel [("3", waitingPayload "tw" 7)] "3"⟩) ∧
     DequeueResp.httpCode DequeueResp.removed = 200) ∧
    (dequeue_endpoint ⟨[], []⟩ "4"
       = (DequeueResp.notInQueue, ⟨zrem [] "4", hdel [] "4"⟩) ∧
     DequeueResp.httpCode DequeueResp.notInQueue = 409) :=
  ⟨C7_dequeue_amended.1 ⟨[], [("9", matchedPayload "tk" 99 "8" (some 2) 3)]⟩ "9"
     (matchedPayload "tk" 99 "8" (some 2) 3) rfl rfl,
   C7_dequeue_amended.2.1 ⟨[("3", 7)], [("3", waitingPayload "tw" 7)]⟩ "3"
     (by intro p hp; cases hp; decide) rfl,
   C7_dequeue_amended.2.2 ⟨[], []⟩ "4" (by intro p hp; cases hp) rfl⟩

/-- Claim C5 (amended): Status leaves the store unchanged when the stored
snapshot is WAITING, but reading the status of a MATCHED user deletes the
stored record (the handler consumes it "so it is not returned again"), so
the MATCHED payload cannot be re-read from the store afterwards. -/
theorem C5_status_matched_consumed_amended :
    (∀ (st : MMState) (u : UserId) (p : StatusPayload) (tf : Option Token)
       (el : Option (Nat × Option UserId)) (fresh : Token) (now : Time),
       hget st.statuses u = some p → p.status = WAITING →
       staleGuard p tf = false →
       status_endpoint st u tf el fresh now
         = (StatusResp.waitingResp p.token (zscore st.queue u).isSome, st)) ∧
    (∀ (st : MMState) (u : UserId) (p : StatusPayload) (mid : Nat)
       (tf : Option Token) (el : Option (Nat × Option UserId)) (fresh : Token)
       (now : Time),
       hget st.statuses u = some p → p.status = MATCHED →
       p.match_id = some mid → mid ≠ 0 → staleGuard p tf = false →
       status_endpoint st u tf el fresh now
         = (StatusResp.matchedResp p.match_id p.opponent_id p.token,
            ⟨st.queue, hdel st.statuses u⟩) ∧
       hget (hdel st.statuses u) u = none) := by
  constructor
  · intro st u p tf el fresh now hp hstat hguard
    simp [status_endpoint, hp, hguard, hstat, WAITING, MATCHED]
  · intro st u p mid tf el fresh now hp hstat hmid hmid0 hguard
    refine ⟨?_, dictLookup_erase_self st.statuses u⟩
    simp [status_endpoint, hp, hguard, hstat, MATCHED, truthyNat, hmid, hmid0]

/-- Witness for C5_status_matched_consumed_amended: a WAITING read leaves
the store unchanged; a MATCHED read returns the payload and deletes it. -/
theorem C5_status_matched_consumed_amended_witness :
    status_endpoint ⟨[("2", 4)], [("2", waitingPayload "tw" 4)]⟩ "2" none none
        "fr" 9
      = (StatusResp.waitingResp (some "tw")
           (zscore [("2", 4)] "2").isSome,
         ⟨[("2", 4)], [("2", waitingPayload "tw" 4)]⟩) ∧
    (status_endpoint ⟨[], [("1", matchedPayload "tk" 99 "2" (some 5) 6)]⟩ "1"
        (some "tk") none "fr" 9
      = (StatusResp.matchedResp (some 99) (some "2") (some "tk"),
         ⟨[], hdel [("1", matchedPayload "tk" 99 "2" (some 5) 6)] "1"⟩) ∧
     hget (hdel [("1", matchedPayload "tk" 99 "2" (some 5) 6)] "1") "1" = none) :=
  ⟨C5_status_matched_consumed_amended.1
     ⟨[("2", 4)], [("2", waitingPayload "tw" 4)]⟩ "2" (waitingPayload "tw" 4)
     none none "fr" 9 rfl rfl rfl,
   C5_status_matched_consumed_amended.2
     ⟨[], [("1", matchedPayload "tk" 99 "2" (some 5) 6)]⟩ "1"
     (matchedPayload "tk" 99 "2" (some 5) 6) 99 (some "tk") none "fr" 9
     rfl rfl rfl (by decide) (by decide)⟩

lemma requeue_players_atomic_not_mem (pts : List (UserId × Token)) (st : MMState)
    (now : Time) (u : UserId) (hu : u ∉ pts.map Prod.fst) :
    zscore (requeue_players_atomic st pts now).queue u = zscore st.queue u ∧
    hget (requeue_players_atomic st pts now).statuses u = hget st.statuses u := by
  induction pts generalizing st now with
  | nil => exact ⟨rfl, rfl⟩
  | cons e rest ih =>
    obtain ⟨p, tok⟩ := e
    simp only [List.map_cons, List.mem_cons] at hu
    push_neg at hu
    obtain ⟨hpu, hrest⟩ := hu
    have step := ih
      ⟨zadd st.queue p now, hset st.statuses p (waitingPayload tok now)⟩
      (now + 1 / 1000000) hrest
    refine ⟨?_, ?_⟩
    · rw [requeue_players_atomic, step.1]
      exact dictLookup_dictSet_ne st.queue p u now (fun hh => hpu hh.symm)
    · rw [requeue_players_atomic, step.2]
      exact dictLookup_dictSet_ne st.statuses p u _ (fun hh => hpu hh.symm)

/-- Claim C4 (amended): when match creation fails, the requeue re-inserts
every popped player at a fresh timestamp taken at requeue time (players of
the same batch 1e-6 apart) and rewrites their snapshot to WAITING with that
new `queued_at` — unconditionally, with no active-pointer guard; the
original enqueue score is not restored. -/
theorem C4_requeue_fresh_timestamp_amended (st : MMState)
    (pts : List (UserId × Token)) (now : Time) (u : UserId) (t : Token)
    (hmem : (u, t) ∈ pts) (hnd : (pts.map Prod.fst).Nodup) :
    ∃ ts : Time, now ≤ ts ∧
      zscore (requeue_players_atomic st pts now).queue u = some ts ∧
      hget (requeue_players_atomic st pts now).statuses u
        = some (waitingPayload t ts) := by
  revert hmem hnd
  induction pts generalizing st now with
  | nil =>
    intro hmem _
    cases hmem
  | cons e rest ih =>
    obtain ⟨p, tok⟩ := e
    intro hmem hnd
    simp only [List.map_cons, List.nodup_cons] at hnd
    obtain ⟨hpn, hndr⟩ := hnd
    rcases List.mem_cons.mp hmem with heq | hmr
    · rw [Prod.mk.injEq] at heq
      obtain ⟨hu, htk⟩ := heq
      subst hu
      subst htk
      have step := requeue_players_atomic_not_mem rest
        ⟨zadd st.queue u now, hset st.statuses u (waitingPayload t now)⟩
        (now + 1 / 1000000) u hpn
      refine ⟨now, le_refl now, ?_, ?_⟩
      · rw [requeue_players_atomic, step.1]
        exact dictLookup_dictSet_self st.queue u now
      · rw [requeue_players_atomic, step.2]
        exact dictLookup_dictSet_self st.statuses u (waitingPayload t now)
    · have hu_in : u ∈ rest.map Prod.fst := List.mem_map.mpr ⟨(u, t), hmr, rfl⟩
      obtain ⟨ts, hts, hz, hh⟩ := ih
        ⟨zadd st.queue p now, hset st.statuses p (waitingPayload tok now)⟩
        (now + 1 / 1000000) hmr hndr
      have hstep : now ≤ now + 1 / 1000000 := by
        have : (0 : ℚ) ≤ 1 / 1000000 := by norm_num
        linarith
      refine ⟨ts, le_trans hstep hts, ?_, ?_⟩
      · rw [requeue_players_atomic]
        exact hz
      · rw [requeue_players_atomic]
        exact hh

/-- Witness for C4_requeue_fresh_timestamp_amended: a single popped user is
re-inserted at some timestamp at or after the requeue time 100. -/
theorem C4_requeue_fresh_timestamp_amended_witness :
    ∃ ts : Time, 100 ≤ ts ∧
      zscore (requeue_players_atomic ⟨[], []⟩ [("10", "t10")] 100).queue "10"
        = some ts ∧
      hget (requeue_players_atomic ⟨[], []⟩ [("10", "t10")] 100).statuses "10"
        = some (waitingPayload "t10" ts) :=
  C4_requeue_fresh_timestamp_amended ⟨[], []⟩ [("10", "t10")] 100 "10" "t10"
    (by decide) (by decide)

/-! ## Shared lemmas about the round resolver -/

lemma minRoundStep_foldl_mem (l : List Round) :
    ∀ (acc : Option Round) (r : Round),
      l.foldl minRoundStep acc = some r → acc = some r ∨ r ∈ l := by
  induction l with
  | nil => exact fun acc r h => Or.inl h
  | cons x xs ih =>
    intro acc r h
    rcases ih (minRoundStep acc x) r h with h' | h'
    · cases acc with
      | none =>
        right
        cases h'
        exact List.mem_cons_self x xs
      | some b =>
        simp only [minRoundStep] at h'
        by_cases hlt : x.round_number < b.round_number
        · rw [if_pos hlt] at h'
          right
          cases h'
          exact List.mem_cons_self x xs
        · rw [if_neg hlt] at h'
          exact Or.inl h'
    · exact Or.inr (List.mem_cons_of_mem x h')

lemma find_current_incomplete_round_mem (rounds : List Round) (e : Round)
    (h : find_current_incomplete_round rounds = some e) :
    e ∈ rounds.filter (fun r => !r.is_complete) := by
  rcases minRoundStep_foldl_mem _ none e h with h' | h'
  · cases h'
  · exact h'

lemma length_le_one_mem_eq {α : Type} (l : List α) (x : α)
    (hl : l.length ≤ 1) (hx : x ∈ l) : l = [x] := by
  cases l with
  | nil => cases hx
  | cons a rest =>
    cases rest with
    | nil =>
      rcases List.mem_singleton.mp hx with h
      rw [h]
    | cons b r2 => simp at hl

lemma is_complete_set_winner (r : Round) (w : Option PlayerId) :
    Round.is_complete { r with winner_id := w } = r.is_complete := rfl

lemma filter_complete_setRoundWinner (w : Option PlayerId) (rn : Nat)
    (rounds : List Round) :
    ((setRoundWinner w rn rounds).filter (fun r => r.is_complete)).length
      = (rounds.filter (fun r => r.is_complete)).length := by
  induction rounds with
  | nil => rfl
  | cons r rest ih =>
    have hcomp : Round.is_complete
        (if r.round_number = rn then { r with winner_id := w } else r)
        = r.is_complete := by
      by_cases h : r.round_number = rn <;> simp [h, Round.is_complete]
    simp only [setRoundWinner, List.map_cons, List.filter_cons, hcomp] at ih ⊢
    by_cases hc : r.is_complete = true
    · simp only [if_pos hc, List.length_cons, ih]
    · simp only [if_neg hc, ih]

lemma update_match_scores_ids_rounds (m : Match) (w : Option PlayerId) :
    (update_match_scores m w).player1_id = m.player1_id ∧
    (update_match_scores m w).player2_id = m.player2_id ∧
    (update_match_scores m w).rounds = m.rounds := by
  unfold update_match_scores
  split_ifs <;> exact ⟨rfl, rfl, rfl⟩

lemma update_match_scores_rounds (m : Match) (w : Option PlayerId) :
    (update_match_scores m w).rounds = m.rounds :=
  (update_match_scores_ids_rounds m w).2.2

lemma determine_match_winner_spec (s1 s2 : Nat) (p1 p2 : PlayerId) (h : p1 ≠ p2) :
    (determine_match_winner s1 s2 p1 p2 = some p1 ↔ s2 < s1) ∧
    (determine_match_winner s1 s2 p1 p2 = some p2 ↔ s1 < s2) ∧
    (determine_match_winner s1 s2 p1 p2 = none ↔ s1 = s2) := by
  unfold determine_match_winner
  rcases Nat.lt_trichotomy s1 s2 with hlt | heq | hgt
  · simp [show ¬ s2 < s1 from by omega, hlt, Ne.symm h,
      show s1 ≠ s2 from by omega]
  · simp [show ¬ s2 < s1 from by omega, show ¬ s1 < s2 from by omega, heq]
  · simp [hgt, show ¬ s1 < s2 from by omega, h, show s1 ≠ s2 from by omega]

lemma finalize_update_winner_law (mm : Match) (w0 : Option PlayerId)
    (hne : mm.player1_id ≠ mm.player2_id) :
    (finalize_match (update_match_scores mm w0)).status = MatchStatus.FINISHED ∧
    ((finalize_match (update_match_scores mm w0)).winner_id = some mm.player1_id ↔
      (update_match_scores mm w0).player2_score
        < (update_match_scores mm w0).player1_score) ∧
    ((finalize_match (update_match_scores mm w0)).winner_id = some mm.player2_id ↔
      (update_match_scores mm w0).player1_score
        < (update_match_scores mm w0).player2_score) ∧
    ((finalize_match (update_match_scores mm w0)).winner_id = none ↔
      (update_match_scores mm w0).player1_score
        = (update_match_scores mm w0).player2_score) := by
  obtain ⟨hid1, hid2, _⟩ := update_match_scores_ids_rounds mm w0
  have hw : (finalize_match (update_match_scores mm w0)).winner_id
      = determine_match_winner (update_match_scores mm w0).player1_score
          (update_match_scores mm w0).player2_score mm.player1_id mm.player2_id := by
    show determine_match_winner (update_match_scores mm w0).player1_score
        (update_match_scores mm w0).player2_score
        (update_match_scores mm w0).player1_id
        (update_match_scores mm w0).player2_id = _
    rw [hid1, hid2]
  obtain ⟨i1, i2, i3⟩ := determine_match_winner_spec
    (update_match_scores mm w0).player1_score
    (update_match_scores mm w0).player2_score mm.player1_id mm.player2_id hne
  refine ⟨rfl, ?_, ?_, ?_⟩
  · rw [hw]; exact i1
  · rw [hw]; exact i2
  · rw [hw]; exact i3

/-- Claim C1: once the number of completed rounds reaches `MAX_ROUNDS`, the
round-processing pipeline finalizes the match: status becomes FINISHED and
the winner is exactly the strict winner by total score (null on a tie). -/
theorem C1_finalization_winner_law (m : Match) (cr : Round) (cat : Category)
    (m' : Match) (w : Option PlayerId) (d : Bool)
    (hne : m.player1_id ≠ m.player2_id)
    (hfull : MAX_ROUNDS ≤ (m.rounds.filter (fun r => r.is_complete)).length)
    (hp : process_round m cr cat = some (m', w, d)) :
    m'.status = MatchStatus.FINISHED ∧
    (m'.winner_id = some m.player1_id ↔ m'.player2_score < m'.player1_score) ∧
    (m'.winner_id = some m.player2_id ↔ m'.player1_score < m'.player2_score) ∧
    (m'.winner_id = none ↔ m'.player1_score = m'.player2_score) := by
  unfold process_round at hp
  cases hs : calculate_round_scores m cr with
  | none => simp [hs] at hp
  | some sc =>
    obtain ⟨s1, s2⟩ := sc
    simp only [hs] at hp
    split at hp
    case isFalse hend =>
      exfalso
      apply hend
      have hrounds : (update_match_scores
          { m with rounds := (setRoundWinner
              (calculate_round_winner s1 s2 m.player1_id m.player2_id).1
              cr.round_number m.rounds) }
          (calculate_round_winner s1 s2 m.player1_id m.player2_id).1).rounds
          = setRoundWinner (calculate_round_winner s1 s2 m.player1_id m.player2_id).1
              cr.round_number m.rounds :=
        update_match_scores_rounds _ _
      have hlen : MAX_ROUNDS ≤ ((update_match_scores
          { m with rounds := (setRoundWinner
              (calculate_round_winner s1 s2 m.player1_id m.player2_id).1
              cr.round_number m.rounds) }
          (calculate_round_winner s1 s2 m.player1_id m.player2_id).1).rounds.filter
            (fun r => r.is_complete)).length := by
        rw [hrounds, filter_complete_setRoundWinner]
        exact hfull
      simpa [should_end_match] using hlen
    case isTrue hend =>
      injection hp with h
      rw [Prod.mk.injEq, Prod.mk.injEq] at h
      obtain ⟨h1, _, _⟩ := h
      rw [← h1]
      exact finalize_update_winner_law
        { m with rounds := (setRoundWinner
            (calculate_round_winner s1 s2 m.player1_id m.player2_id).1
            cr.round_number m.rounds) }
        (calculate_round_winner s1 s2 m.player1_id m.player2_id).1 hne

/-- Witness round for C1 (completed, category economy). -/
def roundW (n : Nat) : Round :=
  { round_number := n, category := "economy", player1_card_id := some 1,
    player2_card_id := some 2, winner_id := none }

/-- Witness match for C1: ten completed rounds, player 1's card strictly
stronger in the economy category. -/
def matchC1 : Match :=
  { player1_id := 1, player2_id := 2, player1_score := 0, player2_score := 0,
    winner_id := none, status := .IN_PROGRESS,
    player1_deck := some [(1, [("economy", 7)])],
    player2_deck := some [(2, [("economy", 3)])],
    rounds := [roundW 1, roundW 2, roundW 3, roundW 4, roundW 5, roundW 6,
               roundW 7, roundW 8, roundW 9, roundW 10] }

/-- The finalized match produced on the C1 witness input. -/
def matchC1' : Match :=
  { matchC1 with
    player1_score := 1
    status := .FINISHED
    winner_id := some 1
    rounds := [roundW 1, roundW 2, roundW 3, roundW 4, roundW 5, roundW 6,
               roundW 7, roundW 8, roundW 9,
               { roundW 10 with winner_id := some 1 }] }

/-- Witness for C1_finalization_winner_law on a concrete ten-round match. -/
theorem C1_finalization_winner_law_witness :
    matchC1'.status = MatchStatus.FINISHED ∧
    (matchC1'.winner_id = some matchC1.player1_id ↔
      matchC1'.player2_score < matchC1'.player1_score) ∧
    (matchC1'.winner_id = some matchC1.player2_id ↔
      matchC1'.player1_score < matchC1'.player2_score) ∧
    (matchC1'.winner_id = none ↔ matchC1'.player1_score = matchC1'.player2_score) :=
  C1_finalization_winner_law matchC1 (roundW 10) "food" matchC1' (some 1) false
    (by decide) (by decide) (by decide)

lemma update_match_scores_p1score (mm : Match) (w : Option PlayerId) :
    (update_match_scores mm w).player1_score
      = if w = some mm.player1_id then mm.player1_score + 1
        else mm.player1_score := by
  unfold update_match_scores
  split_ifs <;> rfl

lemma update_match_scores_p2score (mm : Match) (w : Option PlayerId) :
    (update_match_scores mm w).player2_score
      = if w = some mm.player1_id then mm.player2_score
        else if w = some mm.player2_id then mm.player2_score + 1
        else mm.player2_score := by
  unfold update_match_scores
  split_ifs <;> rfl

lemma mem_setRoundWinner (w : Option PlayerId) (rn : Nat) (rounds : List Round)
    (r : Round) (hr : r ∈ rounds) (hn : r.round_number = rn) :
    { r with winner_id := w } ∈ setRoundWinner w rn rounds := by
  unfold setRoundWinner
  have hmem := List.mem_map_of_mem
    (fun r => if r.round_number = rn then { r with winner_id := w } else r) hr
  have happ : (fun r => if r.round_number = rn then { r with winner_id := w } else r) r
      = { r with winner_id := w } := by
    simp [hn]
  rw [happ] at hmem
  exact hmem

lemma round_resolution_core (m : Match) (w : Option PlayerId) (d : Bool)
    (s1 s2 : Int) (p1s p2s : Nat)
    (hne : m.player1_id ≠ m.player2_id)
    (hw : w = (calculate_round_winner s1 s2 m.player1_id m.player2_id).1)
    (hd : d = (calculate_round_winner s1 s2 m.player1_id m.player2_id).2)
    (h1s : p1s = (update_match_scores m w).player1_score)
    (h2s : p2s = (update_match_scores m w).player2_score) :
    (s2 < s1 → w = some m.player1_id ∧ d = false ∧
      p1s = m.player1_score + 1 ∧ p2s = m.player2_score) ∧
    (s1 < s2 → w = some m.player2_id ∧ d = false ∧
      p2s = m.player2_score + 1 ∧ p1s = m.player1_score) ∧
    (s1 = s2 → w = none ∧ d = true ∧
      p1s = m.player1_score ∧ p2s = m.player2_score) := by
  refine ⟨?_, ?_, ?_⟩
  · intro hlt
    have hcw : calculate_round_winner s1 s2 m.player1_id m.player2_id
        = (some m.player1_id, false) := by
      simp [calculate_round_winner, hlt]
    rw [hcw] at hw hd
    subst hw
    subst hd
    refine ⟨rfl, rfl, ?_, ?_⟩
    · rw [h1s]; simp [update_match_scores]
    · rw [h2s]; simp [update_match_scores]
  · intro hlt
    have hcw : calculate_round_winner s1 s2 m.player1_id m.player2_id
        = (some m.player2_id, false) := by
      simp [calculate_round_winner, show ¬ s2 < s1 from by omega, hlt]
    rw [hcw] at hw hd
    subst hw
    subst hd
    refine ⟨rfl, rfl, ?_, ?_⟩
    · rw [h2s]; simp [update_match_scores, Ne.symm hne]
    · rw [h1s]; simp [update_match_scores, Ne.symm hne]
  · intro heq
    have hcw : calculate_round_winner s1 s2 m.player1_id m.player2_id
        = (none, true) := by
      simp [calculate_round_winner, show ¬ s2 < s1 from by omega,
        show ¬ s1 < s2 from by omega]
    rw [hcw] at hw hd
    subst hw
    subst hd
    refine ⟨rfl, rfl, ?_, ?_⟩
    · rw [h1s]; simp [update_match_scores]
    · rw [h2s]; simp [update_match_scores]

/-- Claim C2: round resolution gives the round to the player whose card's
stat in the round's category is strictly greater (a null winner on
equality), increments exactly the winner's match score by one, leaves both
scores unchanged on a draw, and writes the computed winner into the round. -/
theorem C2_round_resolution (m : Match) (cr : Round) (cat : Category)
    (m' : Match) (w : Option PlayerId) (d : Bool) (s1 s2 : Int)
    (hne : m.player1_id ≠ m.player2_id)
    (hs : calculate_round_scores m cr = some (s1, s2))
    (hp : process_round m cr cat = some (m', w, d)) :
    (s2 < s1 → w = some m.player1_id ∧ d = false ∧
      m'.player1_score = m.player1_score + 1 ∧
      m'.player2_score = m.player2_score) ∧
    (s1 < s2 → w = some m.player2_id ∧ d = false ∧
      m'.player2_score = m.player2_score + 1 ∧
      m'.player1_score = m.player1_score) ∧
    (s1 = s2 → w = none ∧ d = true ∧
      m'.player1_score = m.player1_score ∧
      m'.player2_score = m.player2_score) ∧
    (∀ r ∈ m.rounds, r.round_number = cr.round_number →
      { r with winner_id := w } ∈ m'.rounds) := by
  unfold process_round at hp
  simp only [hs] at hp
  split at hp
  case isTrue hend =>
    injection hp with h
    rw [Prod.mk.injEq, Prod.mk.injEq] at h
    obtain ⟨h1, hw, hd⟩ := h
    have hsc1 : m'.player1_score = (update_match_scores m w).player1_score := by
      rw [← h1, ← hw]
      show (update_match_scores
        { m with rounds := (setRoundWinner
            (calculate_round_winner s1 s2 m.player1_id m.player2_id).1
            cr.round_number m.rounds) }
        (calculate_round_winner s1 s2 m.player1_id m.player2_id).1).player1_score
        = _
      rw [update_match_scores_p1score, update_match_scores_p1score]
    have hsc2 : m'.player2_score = (update_match_scores m w).player2_score := by
      rw [← h1, ← hw]
      show (update_match_scores
        { m with rounds := (setRoundWinner
            (calculate_round_winner s1 s2 m.player1_id m.player2_id).1
            cr.round_number m.rounds) }
        (calculate_round_winner s1 s2 m.player1_id m.player2_id).1).player2_score
        = _
      rw [update_match_scores_p2score, update_match_scores_p2score]
    obtain ⟨c1, c2, c3⟩ :=
      round_resolution_core m w d s1 s2 m'.player1_score m'.player2_score hne
        hw.symm hd.symm hsc1 hsc2
    refine ⟨c1, c2, c3, ?_⟩
    intro r hr hn
    rw [← h1, ← hw]
    show _ ∈ (update_match_scores
      { m with rounds := (setRoundWinner
          (calculate_round_winner s1 s2 m.player1_id m.player2_id).1
          cr.round_number m.rounds) }
      (calculate_round_winner s1 s2 m.player1_id m.player2_id).1).rounds
    rw [update_match_scores_rounds]
    exact mem_setRoundWinner _ cr.round_number m.rounds r hr hn
  case isFalse hend =>
    injection hp with h
    rw [Prod.mk.injEq, Prod.mk.injEq] at h
    obtain ⟨h1, hw, hd⟩ := h
    have hsc1 : m'.player1_score = (update_match_scores m w).player1_score := by
      rw [← h1, ← hw]
      show (update_match_scores
        { m with rounds := (setRoundWinner
            (calculate_round_winner s1 s2 m.player1_id m.player2_id).1
            cr.round_number m.rounds) }
        (calculate_round_winner s1 s2 m.player1_id m.player2_id).1).player1_score
        = _
      rw [update_match_scores_p1score, update_match_scores_p1score]
    have hsc2 : m'.player2_score = (update_match_scores m w).player2_score := by
      rw [← h1, ← hw]
      show (update_match_scores
        { m with rounds := (setRoundWinner
            (calculate_round_winner s1 s2 m.player1_id m.player2_id).1
            cr.round_number m.rounds) }
        (calculate_round_winner s1 s2 m.player1_id m.player2_id).1).player2_score
        = _
      rw [update_match_scores_p2score, update_match_scores_p2score]
    obtain ⟨c1, c2, c3⟩ :=
      round_resolution_core m w d s1 s2 m'.player1_score m'.player2_score hne
        hw.symm hd.symm hsc1 hsc2
    refine ⟨c1, c2, c3, ?_⟩
    intro r hr hn
    rw [← h1, ← hw]
    show _ ∈ (update_match_scores
      { m with rounds := (setRoundWinner
          (calculate_round_winner s1 s2 m.player1_id m.player2_id).1
          cr.round_number m.rounds) }
      (calculate_round_winner s1 s2 m.player1_id m.player2_id).1).rounds ++ _
    apply List.mem_append_left
    rw [update_match_scores_rounds]
    exact mem_setRoundWinner _ cr.round_number m.rounds r hr hn

lemma map_untouched {α : Type} (f : α → α) (l : List α)
    (h : ∀ x ∈ l, f x = x) : l.map f = l := by
  induction l with
  | nil => rfl
  | cons a r ih =>
    simp only [List.map_cons, h a (List.mem_cons_self a r)]
    rw [ih (fun x hx => h x (List.mem_cons_of_mem a hx))]

lemma finalize_match_rounds (mm : Match) : (finalize_match mm).rounds = mm.rounds :=
  rfl

lemma playedCards1_setRoundWinner (w : Option PlayerId) (rn : Nat)
    (rounds : List Round) :
    playedCards1 (setRoundWinner w rn rounds) = playedCards1 rounds := by
  unfold playedCards1 setRoundWinner
  rw [List.filterMap_map]
  apply List.filterMap_congr
  intro r _
  by_cases h : r.round_number = rn <;> simp [h]

lemma playedCards2_setRoundWinner (w : Option PlayerId) (rn : Nat)
    (rounds : List Round) :
    playedCards2 (setRoundWinner w rn rounds) = playedCards2 rounds := by
  unfold playedCards2 setRoundWinner
  rw [List.filterMap_map]
  apply List.filterMap_congr
  intro r _
  by_cases h : r.round_number = rn <;> simp [h]

lemma playedCards1_append (l1 l2 : List Round) :
    playedCards1 (l1 ++ l2) = playedCards1 l1 ++ playedCards1 l2 :=
  List.filterMap_append l1 l2 _

lemma playedCards2_append (l1 l2 : List Round) :
    playedCards2 (l1 ++ l2) = playedCards2 l1 ++ playedCards2 l2 :=
  List.filterMap_append l1 l2 _

lemma process_round_playedCards (m : Match) (cr : Round) (cat : Category)
    (m' : Match) (w : Option PlayerId) (d : Bool)
    (hp : process_round m cr cat = some (m', w, d)) :
    playedCards1 m'.rounds = playedCards1 m.rounds ∧
    playedCards2 m'.rounds = playedCards2 m.rounds := by
  unfold process_round at hp
  cases hs : calculate_round_scores m cr with
  | none => simp [hs] at hp
  | some sc =>
    obtain ⟨s1, s2⟩ := sc
    simp only [hs] at hp
    set w0 := (calculate_round_winner s1 s2 m.player1_id m.player2_id).1 with hw0
    set m1 : Match :=
      { m with rounds := (setRoundWinner w0 cr.round_number m.rounds) } with hm1
    set m2 := update_match_scores m1 w0 with hm2
    have hm1r : m1.rounds = setRoundWinner w0 cr.round_number m.rounds := by
      rw [hm1]
    have hm2r : m2.rounds = setRoundWinner w0 cr.round_number m.rounds := by
      rw [hm2, update_match_scores_rounds, hm1r]
    split at hp
    case isTrue hend =>
      injection hp with h
      rw [Prod.mk.injEq, Prod.mk.injEq] at h
      obtain ⟨h1, _, _⟩ := h
      rw [← h1, finalize_match_rounds, hm2r]
      exact ⟨playedCards1_setRoundWinner _ _ _, playedCards2_setRoundWinner _ _ _⟩
    case isFalse hend =>
      injection hp with h
      rw [Prod.mk.injEq, Prod.mk.injEq] at h
      obtain ⟨h1, _, _⟩ := h
      have hrr : m'.rounds
          = m2.rounds ++ [mkRound (get_next_round_number m2) cat] := by
        rw [← h1]
      rw [hrr, playedCards1_append, playedCards2_append, hm2r]
      constructor
      · rw [playedCards1_setRoundWinner]
        show playedCards1 m.rounds ++ [] = playedCards1 m.rounds
        rw [List.append_nil]
      · rw [playedCards2_setRoundWinner]
        show playedCards2 m.rounds ++ [] = playedCards2 m.rounds
        rw [List.append_nil]

lemma cardAlreadyPlayed_false (cid : CardId) (l : List Round)
    (h : cardAlreadyPlayed cid l = false) :
    ∀ r ∈ l, r.player1_card_id ≠ some cid ∧ r.player2_card_id ≠ some cid := by
  intro r hr
  unfold cardAlreadyPlayed at h
  rw [List.any_eq_false] at h
  have hh := h r hr
  simp only [Bool.or_eq_true, beq_iff_eq, not_or] at hh
  exact hh

lemma recordCard_preserves_nodup (m : Match) (pid cid : Int) (e : Round)
    (hfind : find_current_incomplete_round m.rounds = some e)
    (hnums : (m.rounds.map (fun r => r.round_number)).Nodup)
    (hinc : (m.rounds.filter (fun r => !r.is_complete)).length ≤ 1)
    (h1 : (playedCards1 m.rounds).Nodup) (h2 : (playedCards2 m.rounds).Nodup)
    (hmoved : alreadyMoved m pid (some e) = false)
    (hplayed : cardAlreadyPlayed cid (find_completed_rounds m.rounds) = false) :
    (playedCards1 (recordCard m pid cid e.round_number)).Nodup ∧
    (playedCards2 (recordCard m pid cid e.round_number)).Nodup := by
  have hefilter : e ∈ m.rounds.filter (fun r => !r.is_complete) :=
    find_current_incomplete_round_mem _ _ hfind
  have he_mem : e ∈ m.rounds := List.mem_of_mem_filter hefilter
  have hsingle : m.rounds.filter (fun r => !r.is_complete) = [e] :=
    length_le_one_mem_eq _ _ hinc hefilter
  obtain ⟨l1, l2, hsplit⟩ := List.append_of_mem he_mem
  have hnotin : e.round_number ∉ (l1 ++ l2).map (fun r => r.round_number) := by
    have hh := hnums
    rw [hsplit, List.map_append, List.map_cons, List.nodup_middle,
      List.nodup_cons, ← List.map_append] at hh
    exact hh.1
  have hother : ∀ r ∈ l1 ++ l2, r.round_number ≠ e.round_number := by
    intro r hr hrn
    exact hnotin (hrn ▸ List.mem_map_of_mem (fun r => r.round_number) hr)
  have hmem_back : ∀ r ∈ l1 ++ l2, r ∈ m.rounds := by
    intro r hr
    rw [hsplit]
    rcases List.mem_append.mp hr with h | h
    · exact List.mem_append_left _ h
    · exact List.mem_append_right _ (List.mem_cons_of_mem e h)
  have hcomplete : ∀ r ∈ l1 ++ l2, r.is_complete = true := by
    intro r hr
    by_contra hc
    have hcf : r.is_complete = false := by
      cases hcc : r.is_complete
      · rfl
      · exact absurd hcc hc
    have hrf : r ∈ m.rounds.filter (fun r => !r.is_complete) :=
      List.mem_filter.mpr ⟨hmem_back r hr, by simp [hcf]⟩
    rw [hsingle, List.mem_singleton] at hrf
    exact hother r hr (by rw [hrf])
  have hnone : ∀ r ∈ l1 ++ l2,
      r.player1_card_id ≠ some cid ∧ r.player2_card_id ≠ some cid := by
    intro r hr
    apply cardAlreadyPlayed_false cid _ hplayed
    exact List.mem_filter.mpr ⟨hmem_back r hr, by simp [hcomplete r hr]⟩
  set upd : Round :=
    (if pid = m.player1_id then { e with player1_card_id := some cid }
     else { e with player2_card_id := some cid }) with hupd
  have hrec : recordCard m pid cid e.round_number = l1 ++ upd :: l2 := by
    unfold recordCard
    rw [hsplit, List.map_append, List.map_cons]
    rw [map_untouched _ l1 (fun r hr => if_neg (hother r (List.mem_append_left l2 hr))),
        map_untouched _ l2 (fun r hr => if_neg (hother r (List.mem_append_right l1 hr)))]
    simp [hupd]
  by_cases hpid : pid = m.player1_id
  · have hslot : e.player1_card_id = none := by
      simp only [alreadyMoved] at hmoved
      rw [if_pos hpid] at hmoved
      cases hcs : e.player1_card_id with
      | none => rfl
      | some c => rw [hcs] at hmoved; cases hmoved
    have hupd1 : upd.player1_card_id = some cid := by rw [hupd, if_pos hpid]
    have hupd2 : upd.player2_card_id = e.player2_card_id := by rw [hupd, if_pos hpid]
    have hold1 : playedCards1 m.rounds = playedCards1 l1 ++ playedCards1 l2 := by
      have hmid : playedCards1 (e :: l2) = playedCards1 l2 := by
        simp [playedCards1, List.filterMap_cons, hslot]
      rw [hsplit, playedCards1_append, hmid]
    have hnew1 : playedCards1 (l1 ++ upd :: l2)
        = playedCards1 l1 ++ cid :: playedCards1 l2 := by
      have hmid : playedCards1 (upd :: l2) = cid :: playedCards1 l2 := by
        simp [playedCards1, List.filterMap_cons, hupd1]
      rw [playedCards1_append, hmid]
    have hnotmem : cid ∉ playedCards1 l1 ++ playedCards1 l2 := by
      intro hc
      rcases List.mem_append.mp hc with hc | hc
      · obtain ⟨r, hr, hfr⟩ := List.mem_filterMap.mp hc
        exact (hnone r (List.mem_append_left l2 hr)).1 hfr
      · obtain ⟨r, hr, hfr⟩ := List.mem_filterMap.mp hc
        exact (hnone r (List.mem_append_right l1 hr)).1 hfr
    constructor
    · rw [hrec, hnew1, List.nodup_middle]
      exact List.nodup_cons.mpr ⟨hnotmem, hold1 ▸ h1⟩
    · rw [hrec]
      have heq : playedCards2 (l1 ++ upd :: l2) = playedCards2 m.rounds := by
        have hmid : playedCards2 (upd :: l2) = playedCards2 (e :: l2) := by
          simp [playedCards2, List.filterMap_cons, hupd2]
        rw [hsplit, playedCards2_append, playedCards2_append, hmid]
      rw [heq]
      exact h2
  · have hslot : e.player2_card_id = none := by
      simp only [alreadyMoved] at hmoved
      rw [if_neg hpid] at hmoved
      cases hcs : e.player2_card_id with
      | none => rfl
      | some c => rw [hcs] at hmoved; cases hmoved
    have hupd1 : upd.player1_card_id = e.player1_card_id := by rw [hupd, if_neg hpid]
    have hupd2 : upd.player2_card_id = some cid := by rw [hupd, if_neg hpid]
    have hold2 : playedCards2 m.rounds = playedCards2 l1 ++ playedCards2 l2 := by
      have hmid : playedCards2 (e :: l2) = playedCards2 l2 := by
        simp [playedCards2, List.filterMap_cons, hslot]
      rw [hsplit, playedCards2_append, hmid]
    have hnew2 : playedCards2 (l1 ++ upd :: l2)
        = playedCards2 l1 ++ cid :: playedCards2 l2 := by
      have hmid : playedCards2 (upd :: l2) = cid :: playedCards2 l2 := by
        simp [playedCards2, List.filterMap_cons, hupd2]
      rw [playedCards2_append, hmid]
    have hnotmem : cid ∉ playedCards2 l1 ++ playedCards2 l2 := by
      intro hc
      rcases List.mem_append.mp hc with hc | hc
      · obtain ⟨r, hr, hfr⟩ := List.mem_filterMap.mp hc
        exact (hnone r (List.mem_append_left l2 hr)).2 hfr
      · obtain ⟨r, hr, hfr⟩ := List.mem_filterMap.mp hc
        exact (hnone r (List.mem_append_right l1 hr)).2 hfr
    constructor
    · rw [hrec]
      have heq : playedCards1 (l1 ++ upd :: l2) = playedCards1 m.rounds := by
        have hmid : playedCards1 (upd :: l2) = playedCards1 (e :: l2) := by
          simp [playedCards1, List.filterMap_cons, hupd1]
        rw [hsplit, playedCards1_append, playedCards1_append, hmid]
      rw [heq]
      exact h1
    · rw [hrec, hnew2, List.nodup_middle]
      exact List.nodup_cons.mpr ⟨hnotmem, hold2 ▸ h2⟩

lemma validate_move_none_facts (pid cid : Int) (m : Match) (cr : Round)
    (all : List Round)
    (h : validate_move_submission pid cid m (some cr) all = none) :
    alreadyMoved m pid (some cr) = false ∧ cardAlreadyPlayed cid all = false := by
  have hst : m.status = MatchStatus.IN_PROGRESS := by
    by_contra hc
    simp [validate_move_submission, hc] at h
  have hpart : ¬ (pid ≠ m.player1_id ∧ pid ≠ m.player2_id) := by
    intro hc
    simp [validate_move_submission, hst, hc] at h
  obtain ⟨dk, hdk⟩ : ∃ dk, playerDeck m pid = some dk := by
    cases hdkc : playerDeck m pid with
    | none => simp [validate_move_submission, hst, hpart, hdkc] at h
    | some dk => exact ⟨dk, rfl⟩
  have hne : ¬ dk = [] := by
    intro hc
    simp [validate_move_submission, hst, hpart, hdk, hc] at h
  have hlk : ¬ (dictLookup dk cid).isNone = true := by
    intro hc
    simp [validate_move_submission, hst, hpart, hdk, hne, hc] at h
  have hmov : alreadyMoved m pid (some cr) = false := by
    by_contra hc
    rw [Bool.not_eq_false] at hc
    simp [validate_move_submission, hst, hpart, hdk, hne, hlk, hc] at h
  have hcp : cardAlreadyPlayed cid all = false := by
    by_contra hc
    rw [Bool.not_eq_false] at hc
    simp [validate_move_submission, hst, hpart, hdk, hne, hlk, hmov, hc] at h
  exact ⟨hmov, hcp⟩

lemma submit_move_reduce (m : Match) (pid cid : Int) (rn : Nat) (cat : Category)
    (e : Round)
    (hfind : find_current_incomplete_round m.rounds = some e)
    (hrn : e.round_number = rn)
    (hv : validate_move_submission pid cid m (some e)
      (find_completed_rounds m.rounds) = none) :
    submit_move m pid cid rn cat
      = if !(Round.is_complete (if pid = m.player1_id
            then { e with player1_card_id := some cid }
            else { e with player2_card_id := some cid })) then
          SubmitMoveResult.waitingForOpponent
            { m with rounds := recordCard m pid cid rn }
        else
          match process_round { m with rounds := recordCard m pid cid rn }
              (if pid = m.player1_id then { e with player1_card_id := some cid }
               else { e with player2_card_id := some cid }) cat with
          | none => SubmitMoveResult.scoringError
          | some (m'', w, d) => SubmitMoveResult.roundProcessed m'' w d := by
  unfold submit_move
  simp only [hfind]
  rw [if_neg (by simp [hrn])]
  rw [hv]

lemma submit_move_playedCards (m : Match) (pid cid : Int) (rn : Nat)
    (cat : Category) (e : Round) (m' : Match)
    (hfind : find_current_incomplete_round m.rounds = some e)
    (hrn : e.round_number = rn)
    (hv : validate_move_submission pid cid m (some e)
      (find_completed_rounds m.rounds) = none)
    (hsub : submit_move m pid cid rn cat = SubmitMoveResult.waitingForOpponent m' ∨
      ∃ w d, submit_move m pid cid rn cat
        = SubmitMoveResult.roundProcessed m' w d) :
    playedCards1 m'.rounds = playedCards1 (recordCard m pid cid rn) ∧
    playedCards2 m'.rounds = playedCards2 (recordCard m pid cid rn) := by
  rw [submit_move_reduce m pid cid rn cat e hfind hrn hv] at hsub
  by_cases hpid : pid = m.player1_id
  · simp only [if_pos hpid] at hsub
    cases hc2 : e.player2_card_id with
    | none =>
      simp only [Round.is_complete, hc2, Option.isSome_some, Option.isSome_none,
        Bool.and_false, Bool.not_false, if_true] at hsub
      rcases hsub with h | ⟨w, d, h⟩
      · cases h
        exact ⟨rfl, rfl⟩
      · cases h
    | some c2 =>
      simp only [Round.is_complete, hc2, Option.isSome_some, Bool.and_self,
        Bool.not_true] at hsub
      cases hpr : process_round { m with rounds := recordCard m pid cid rn }
          { round_number := e.round_number, category := e.category,
            player1_card_id := some cid, player2_card_id := some c2,
            winner_id := e.winner_id } cat with
      | none =>
        simp only [hpr] at hsub
        rcases hsub with h | ⟨w, d, h⟩ <;> cases h
      | some t =>
        obtain ⟨m'', w', d'⟩ := t
        simp only [hpr] at hsub
        rcases hsub with h | ⟨w, d, h⟩
        · cases h
        · cases h
          exact process_round_playedCards _ _ _ _ _ _ hpr
  · simp only [if_neg hpid] at hsub
    cases hc1 : e.player1_card_id with
    | none =>
      simp only [Round.is_complete, hc1, Option.isSome_some, Option.isSome_none,
        Bool.false_and, Bool.not_false, if_true] at hsub
      rcases hsub with h | ⟨w, d, h⟩
      · cases h
        exact ⟨rfl, rfl⟩
      · cases h
    | some c1 =>
      simp only [Round.is_complete, hc1, Option.isSome_some, Bool.and_self,
        Bool.not_true] at hsub
      cases hpr : process_round { m with rounds := recordCard m pid cid rn }
          { round_number := e.round_number, category := e.category,
            player1_card_id := some c1, player2_card_id := some cid,
            winner_id := e.winner_id } cat with
      | none =>
        simp only [hpr] at hsub
        rcases hsub with h | ⟨w, d, h⟩ <;> cases h
      | some t =>
        obtain ⟨m'', w', d'⟩ := t
        simp only [hpr] at hsub
        rcases hsub with h | ⟨w, d, h⟩
        · cases h
        · cases h
          exact process_round_playedCards _ _ _ _ _ _ hpr

/-- Claim C3: no card is recorded twice for the same player in a match.
First conjunct: a second card by a player whose slot in the current round is
already filled is rejected with ALREADY_MOVED_THIS_ROUND (given the earlier
checks pass). Second conjunct: a card appearing in any completed round, on
either side, is rejected with CARD_ALREADY_PLAYED. Third conjunct: a
successful SubmitMove preserves, for both players, the no-duplicate
invariant over the cards recorded across the match's rounds (under the
repository invariants: unique round numbers and at most one incomplete
round). -/
theorem C3_no_card_reuse :
    (∀ (pid cid : Int) (m : Match) (cr : Round) (all : List Round) (dk : Deck),
       m.status = MatchStatus.IN_PROGRESS →
       ¬ (pid ≠ m.player1_id ∧ pid ≠ m.player2_id) →
       playerDeck m pid = some dk → dk ≠ [] →
       (dictLookup dk cid).isNone = false →
       alreadyMoved m pid (some cr) = true →
       validate_move_submission pid cid m (some cr) all
         = some ValidationError.ALREADY_MOVED_THIS_ROUND) ∧
    (∀ (pid cid : Int) (m : Match) (cr : Round) (all : List Round) (dk : Deck),
       m.status = MatchStatus.IN_PROGRESS →
       ¬ (pid ≠ m.player1_id ∧ pid ≠ m.player2_id) →
       playerDeck m pid = some dk → dk ≠ [] →
       (dictLookup dk cid).isNone = false →
       alreadyMoved m pid (some cr) = false →
       cardAlreadyPlayed cid all = true →
       validate_move_submission pid cid m (some cr) all
         = some ValidationError.CARD_ALREADY_PLAYED) ∧
    (∀ (m : Match) (pid cid : Int) (rn : Nat) (cat : Category) (m' : Match),
       (m.rounds.map (fun r => r.round_number)).Nodup →
       (m.rounds.filter (fun r => !r.is_complete)).length ≤ 1 →
       (playedCards1 m.rounds).Nodup → (playedCards2 m.rounds).Nodup →
       (submit_move m pid cid rn cat = SubmitMoveResult.waitingForOpponent m' ∨
        ∃ w d, submit_move m pid cid rn cat
          = SubmitMoveResult.roundProcessed m' w d) →
       (playedCards1 m'.rounds).Nodup ∧ (playedCards2 m'.rounds).Nodup) := by
  refine ⟨?_, ?_, ?_⟩
  · intro pid cid m cr all dk hst hpart hdk hne hlk hmov
    simp [validate_move_submission, hst, hpart, hdk, hne, hlk, hmov]
  · intro pid cid m cr all dk hst hpart hdk hne hlk hmov hcp
    simp [validate_move_submission, hst, hpart, hdk, hne, hlk, hmov, hcp]
  · intro m pid cid rn cat m' hnums hinc h1 h2 hsub
    cases hfind : find_current_incomplete_round m.rounds with
    | none =>
      rcases hsub with h | ⟨w, d, h⟩ <;> simp [submit_move, hfind] at h
    | some e =>
      by_cases hrn : e.round_number ≠ rn
      · rcases hsub with h | ⟨w, d, h⟩ <;> simp [submit_move, hfind, hrn] at h
      · push_neg at hrn
        cases hv : validate_move_submission pid cid m (some e)
            (find_completed_rounds m.rounds) with
        | some err =>
          rcases hsub with h | ⟨w, d, h⟩ <;> simp [submit_move, hfind, hrn, hv] at h
        | none =>
          obtain ⟨hmoved, hplayed⟩ := validate_move_none_facts pid cid m e _ hv
          have hcore := recordCard_preserves_nodup m pid cid e hfind hnums hinc
            h1 h2 hmoved hplayed
          rw [hrn] at hcore
          obtain ⟨hpc1, hpc2⟩ :=
            submit_move_playedCards m pid cid rn cat e m' hfind hrn hv hsub
          rw [hpc1, hpc2]
          exact hcore

/-- Witness round for C2: both cards played, category economy. -/
def roundC2 : Round :=
  { round_number := 1, category := "economy", player1_card_id := some 1,
    player2_card_id := some 2, winner_id := none }

/-- Witness match for C2: one completed round. -/
def matchC2 : Match :=
  { player1_id := 1, player2_id := 2, player1_score := 0, player2_score := 0,
    winner_id := none, status := .IN_PROGRESS,
    player1_deck := some [(1, [("economy", 7)])],
    player2_deck := some [(2, [("economy", 3)])],
    rounds := [roundC2] }

/-- The match C2's pipeline produces on the witness input. -/
def matchC2' : Match :=
  { matchC2 with
    player1_score := 1
    rounds := [{ roundC2 with winner_id := some 1 }, mkRound 2 "food"] }

/-- Witness for C2_round_resolution on a concrete round with scores 7 vs 3. -/
theorem C2_round_resolution_witness :
    ((3 : Int) < 7 → some 1 = some matchC2.player1_id ∧ false = false ∧
      matchC2'.player1_score = matchC2.player1_score + 1 ∧
      matchC2'.player2_score = matchC2.player2_score) ∧
    ((7 : Int) < 3 → some 1 = some matchC2.player2_id ∧ false = false ∧
      matchC2'.player2_score = matchC2.player2_score + 1 ∧
      matchC2'.player1_score = matchC2.player1_score) ∧
    ((7 : Int) = 3 → some (1 : PlayerId) = none ∧ false = true ∧
      matchC2'.player1_score = matchC2.player1_score ∧
      matchC2'.player2_score = matchC2.player2_score) ∧
    (∀ r ∈ matchC2.rounds, r.round_number = roundC2.round_number →
      { r with winner_id := some 1 } ∈ matchC2'.rounds) :=
  C2_round_resolution matchC2 roundC2 "food" matchC2' (some 1) false 7 3
    (by decide) (by decide) (by decide)

/-- Witness deck for C3. -/
def deckC3 : Deck := [(1, [("economy", 5)]), (2, [("economy", 4)])]

/-- Witness match for C3 parts one and two. -/
def matchC3 : Match :=
  { player1_id := 1, player2_id := 2, player1_score := 0, player2_score := 0,
    winner_id := none, status := .IN_PROGRESS,
    player1_deck := some deckC3, player2_deck := some deckC3,
    rounds := [] }

/-- Current round with player 1's slot already filled (C3 part one). -/
def roundC3 : Round :=
  { round_number := 1, category := "economy", player1_card_id := some 1,
    player2_card_id := none, winner_id := none }

/-- Empty current round (C3 part two). -/
def crEmptyC3 : Round :=
  { round_number := 2, category := "economy", player1_card_id := none,
    player2_card_id := none, winner_id := none }

/-- A completed round in which card 2 was already played (C3 part two). -/
def rDoneC3 : Round :=
  { round_number := 1, category := "economy", player1_card_id := some 2,
    player2_card_id := some 9, winner_id := some 1 }

/-- Witness match for C3 part three: one empty round, pristine invariant. -/
def matchC3w : Match :=
  { player1_id := 1, player2_id := 2, player1_score := 0, player2_score := 0,
    winner_id := none, status := .IN_PROGRESS,
    player1_deck := some deckC3, player2_deck := some deckC3,
    rounds := [crEmptyC3] }

/-- The match C3 part three's submission produces on the witness input. -/
def matchC3w' : Match :=
  { matchC3w with
    rounds := [{ crEmptyC3 with player1_card_id := some 1 }] }

/-- Witness for C3_no_card_reuse: all three conjuncts applied at concrete
inputs. -/
theorem C3_no_card_reuse_witness :
    validate_move_submission 1 2 matchC3 (some roundC3) []
      = some ValidationError.ALREADY_MOVED_THIS_ROUND ∧
    validate_move_submission 1 2 matchC3 (some crEmptyC3) [rDoneC3]
      = some ValidationError.CARD_ALREADY_PLAYED ∧
    ((playedCards1 matchC3w'.rounds).Nodup ∧
     (playedCards2 matchC3w'.rounds).Nodup) :=
  ⟨C3_no_card_reuse.1 1 2 matchC3 roundC3 [] deckC3 (by decide) (by decide)
     (by decide) (by decide) (by decide) (by decide),
   C3_no_card_reuse.2.1 1 2 matchC3 crEmptyC3 [rDoneC3] deckC3 (by decide)
     (by decide) (by decide) (by decide) (by decide) (by decide) (by decide),
   C3_no_card_reuse.2.2 matchC3w 1 1 2 "food" matchC3w' (by decide) (by decide)
     (by decide) (by decide) (Or.inl (by decide))⟩

end CardDuel
